import Mathlib

set_option maxRecDepth 8000

/-!
Shallow embedding of the SMS-to-Cursor automation pipeline
(repository Automated_Siri_cursor_control).

Python strings are modelled as Lean String values; String.length counts
characters, which matches Python len on text.  Network and GUI effects are
modelled by explicit inputs (health-probe results, response bodies,
clipboard contents, window lists) and by explicit event traces.  Every
source function that catches all exceptions and returns a value is
embedded as a total Lean function, so the never-raises part of each
contract is captured by totality of the embedding.

Two near-duplicate entry points exist in the repository: the dashboard
variant src/app.py (namespace SrcApp below) and the top-level app.py
(namespace RootApp below).  Both are embedded where a claim cites both.
-/

/-- Python slice s[:n], the first n characters of s. -/
def pyTake (s : String) (n : Nat) : String := ⟨s.data.take n⟩

/-- Python slice s[-n:], the last (at most) n characters of s. -/
def pyTail (s : String) (n : Nat) : String := ⟨s.data.drop (s.data.length - n)⟩

/-- Python str.lower, character-wise case folding. -/
def pyLower (s : String) : String := ⟨s.data.map Char.toLower⟩

/-- Helper for the Python substring test (needle in hay) on character lists. -/
def containsSub : List Char → List Char → Bool
  | [], needle => needle.isEmpty
  | c :: t, needle => needle.isPrefixOf (c :: t) || containsSub t needle

/-- Python substring membership: needle in hay. -/
def strContains (hay needle : String) : Bool := containsSub hay.data needle.data

/-- ActionType enumeration from src/schemas.py. -/
inductive ActionType where
  | create_file
  | edit_file
  | run_code
  | search_code
  | open_file
  | execute_command
  | error
deriving DecidableEq, Repr

/-- CursorAction model from src/schemas.py: action is required, description is
required, command and file_path are Optional with default None.  Pydantic
enforces no per-kind requirement on file_path. -/
structure CursorAction where
  action : ActionType
  command : Option String
  description : String
  file_path : Option String
deriving DecidableEq, Repr

/-- Raw JSON object produced by the classifier, restricted to the fields the
CursorAction schema reads; a missing key is none. -/
structure RawData where
  action : Option String
  command : Option String
  description : Option String
  file_path : Option String
deriving DecidableEq, Repr

/-- Pydantic coercion of a string into the ActionType enumeration
(use_enum_values accepts exactly the member values). -/
def actionTypeOfString (s : String) : Option ActionType :=
  if s = "create_file" then some .create_file
  else if s = "edit_file" then some .edit_file
  else if s = "run_code" then some .run_code
  else if s = "search_code" then some .search_code
  else if s = "open_file" then some .open_file
  else if s = "execute_command" then some .execute_command
  else if s = "error" then some .error
  else none

/-- Pydantic validation of CursorAction(**raw_data): action must be present and
a member of the enumeration, description must be present; command and
file_path are optional and carried through unchanged. -/
def validateCursorAction (r : RawData) : Except String CursorAction :=
  match r.action with
  | none => .error "field required: action"
  | some a =>
    match actionTypeOfString a with
    | none => .error "value is not a valid enumeration member: action"
    | some act =>
      match r.description with
      | none => .error "field required: description"
      | some d => .ok { action := act, command := r.command, description := d, file_path := r.file_path }

/-- Outcome of the classifier call as seen by process_with_gemini: the reply
parsed as JSON, or json.loads raised JSONDecodeError, or the API call itself
raised (the generic-exception branch).  The string argument is the exception
message str(e). -/
inductive ClassifierPayload where
  | parsed (raw : RawData)
  | unparseable (emsg : String)
  | apiFailure (emsg : String)
deriving DecidableEq, Repr

/-- A payload is malformed when it fails JSON parsing or fails schema
validation (the two malformed-payload cases of the claims). -/
def isMalformed : ClassifierPayload → Bool
  | .parsed raw =>
    match validateCursorAction raw with
    | .ok _ => false
    | .error _ => true
  | .unparseable _ => true
  | .apiFailure _ => false

namespace SrcApp

/-- process_with_gemini from src/app.py (the dashboard variant): a validated
payload is returned as is; a ValidationError yields a fallback create_file
action with file_path response.txt; a JSONDecodeError yields a fallback
create_file action with file_path command_response.txt; any other exception
yields an error action.  All exception branches return, so the function is
total. -/
def process_with_gemini (message : String) (p : ClassifierPayload) : CursorAction :=
  match p with
  | .parsed raw =>
    match validateCursorAction raw with
    | .ok a => a
    | .error _ =>
      { action := .create_file
        command := some ("Create a text file with response to: " ++ message)
        description := "Creating a response file for: " ++ message
        file_path := some "response.txt" }
  | .unparseable _ =>
      { action := .create_file
        command := some ("Create a file based on: " ++ message)
        description := "Creating a file for command: " ++ message
        file_path := some "command_response.txt" }
  | .apiFailure e =>
      { action := .error
        command := none
        description := "Error processing with Gemini: " ++ e
        file_path := none }

end SrcApp

namespace RootApp

/-- process_with_gemini from the top-level app.py: every failure branch
(ValidationError, JSONDecodeError, generic exception) returns an error-kind
action whose description embeds the exception message. -/
def process_with_gemini (message : String) (p : ClassifierPayload) : CursorAction :=
  match p with
  | .parsed raw =>
    match validateCursorAction raw with
    | .ok a => a
    | .error e =>
      { action := .error
        command := none
        description := "Invalid response format from Gemini: " ++ e
        file_path := none }
  | .unparseable e =>
      { action := .error
        command := none
        description := "Invalid JSON from Gemini: " ++ e
        file_path := none }
  | .apiFailure e =>
      { action := .error
        command := none
        description := "Error processing with Gemini: " ++ e
        file_path := none }

end RootApp

/-- Result of one requests.get health probe: the server answered with a status
code, or the call raised (connection error or timeout). -/
inductive ProbeResult where
  | ok (status : Nat)
  | exn
deriving DecidableEq, Repr

/-- JSON body of a bridge reply, restricted to the keys perform_cursor_action
reads; a missing key is none. -/
structure BridgeBody where
  success : Option Bool
  cursor_response : Option String
  method : Option String
  error : Option String
deriving DecidableEq, Repr

/-- Result of the requests.post to the selected bridge: a response with status
and body, or one of the exceptions the source catches (ConnectionError,
Timeout, anything else). -/
inductive PostResult where
  | resp (status : Nat) (body : BridgeBody)
  | connErr
  | timeoutErr
  | otherExn (emsg : String)
deriving DecidableEq, Repr

/-- The network environment one dispatch runs in: what each health probe and
each possible execute request would return.  Health state is not cached, so
one World per dispatch. -/
structure World where
  health5002 : ProbeResult
  health5001 : ProbeResult
  post5002 : PostResult
  post5001 : PostResult
deriving DecidableEq, Repr

/-- The two statically configured bridges: Enhanced Bridge on port 5002
(tried first) and Simple Bridge on port 5001 (the fallback). -/
inductive BridgeName where
  | enhanced
  | simple
deriving DecidableEq, Repr

/-- The distinct return statements of perform_cursor_action in src/app.py,
one constructor per returned string shape, carrying exactly the data the
string interpolates. -/
inductive RouteOutcome where
  | noBridgeAvailable
  | noBridgeResponding
  | cursorResponse (method text : String)
  | sentOk (bridge : BridgeName)
  | bridgeError (bridge : BridgeName) (emsg : String)
  | bridgeFailed (bridge : BridgeName) (status : Nat)
  | connectionRefused
  | timedOut
  | internalError (emsg : String)
deriving DecidableEq, Repr

/-- A dispatch outcome together with which bridge, if any, received the
execute request (the POST to /inject). -/
structure DispatchResult where
  outcome : RouteOutcome
  executed : Option BridgeName
deriving DecidableEq, Repr

/-- Outcomes that report the absence of any healthy backend. -/
def isNoBackendOutcome : RouteOutcome → Bool
  | .noBridgeAvailable => true
  | .noBridgeResponding => true
  | _ => false

/-- Outcomes the source reports with a success marker: a collected Cursor
response, or the default sent-successfully acknowledgment. -/
def isSucceededOutcome : RouteOutcome → Bool
  | .cursorResponse _ _ => true
  | .sentOk _ => true
  | _ => false

namespace SrcApp

/-- Interpretation of the bridge reply in perform_cursor_action
(src/app.py): status 200 with success flag true or absent returns the
collected cursor_response when it is a non-empty string longer than 10
characters and the default acknowledgment otherwise; status 200 with
success false returns the bridge error; any other status returns the
failed-with-status message; ConnectionError, Timeout and other exceptions
map to their respective messages. -/
def interpretPost (b : BridgeName) (r : PostResult) : RouteOutcome :=
  match r with
  | .resp status body =>
    if status = 200 then
      if body.success.getD true then
        let cr := body.cursor_response.getD "No response captured"
        if cr ≠ "" ∧ 10 < cr.length then
          .cursorResponse (body.method.getD "unknown") cr
        else
          .sentOk b
      else
        .bridgeError b (body.error.getD "Unknown error")
    else
      .bridgeFailed b status
  | .connErr => .connectionRefused
  | .timeoutErr => .timedOut
  | .otherExn m => .internalError m

/-- Fallback branch of perform_cursor_action: probe the Simple Bridge on
port 5001; a 200 answer selects it and posts to it, a non-200 answer
returns the no-bridge-available message, a raising probe returns the
no-bridge-responding message.  No POST is issued unless the probe answered
200. -/
def tryFallback (w : World) : DispatchResult :=
  match w.health5001 with
  | .ok s =>
    if s = 200 then
      { outcome := interpretPost .simple w.post5001, executed := some .simple }
    else
      { outcome := .noBridgeAvailable, executed := none }
  | .exn => { outcome := .noBridgeResponding, executed := none }

/-- perform_cursor_action from src/app.py: probe the Enhanced Bridge on port
5002 first; a 200 answer selects it and forwards the execute request to it;
a non-200 answer or a raising probe falls back to the Simple Bridge on port
5001.  The executed field records which bridge, if any, received the POST. -/
def perform_cursor_action (w : World) : DispatchResult :=
  match w.health5002 with
  | .ok s =>
    if s = 200 then
      { outcome := interpretPost .enhanced w.post5002, executed := some .enhanced }
    else
      tryFallback w
  | .exn => tryFallback w

/-- Which execute request a given bridge would answer: the enhanced bridge
is posted on port 5002 and the simple bridge on port 5001. -/
def postFor (w : World) : BridgeName → PostResult
  | .enhanced => w.post5002
  | .simple => w.post5001

/-- One log entry of the in-memory activity log (the dict built by add_log in
src/app.py). -/
structure LogEntry where
  timestamp : String
  log_type : String
  message : String
  phone_number : Option String
  action : Option String
  result : Option String
deriving DecidableEq, Repr

/-- Fixed capacity of the activity log (MAX_LOGS in src/app.py). -/
def MAX_LOGS : Nat := 50

/-- add_log from src/app.py: append the entry, then pop the front element
when the buffer length exceeds MAX_LOGS. -/
def add_log (logs : List LogEntry) (e : LogEntry) : List LogEntry :=
  if MAX_LOGS < (logs ++ [e]).length then (logs ++ [e]).drop 1 else logs ++ [e]

end SrcApp

/-- A visible or hidden top-level window of the desktop, as enumerated by
win32gui.EnumWindows. -/
structure Window where
  hwnd : Nat
  title : String
  visible : Bool
deriving DecidableEq, Repr

/-- Observable UI-automation effects emitted by the bridges, in order. -/
inductive UIEvent where
  | activateWindow (hwnd : Nat)
  | hotkey (keys : List String)
  | press (key : String)
  | typewrite (text : String)
  | sleepMs (ms : Nat)
deriving DecidableEq, Repr

/-- What the clipboard extraction inside collect_response yields: the
clipboard content (get_clipboard_content returns the empty string on any
internal failure, so got covers that case too), or an exception raised by
the select-and-copy automation, caught by the outer handler. -/
inductive ClipResult where
  | got (text : String)
  | raised
deriving DecidableEq, Repr

namespace SimpleUiBridge

/-- Window filter of SimpleCursorBridge.activate_cursor in
simple_ui_bridge.py: visible windows whose lowercased title contains the
marker string cursor. -/
def matchesCursor (w : Window) : Bool :=
  w.visible && strContains (pyLower w.title) "cursor"

/-- activate_cursor from simple_ui_bridge.py: enumerate matching windows and
operate on the first one, or report failure when none match. -/
def activate_cursor (ws : List Window) : Option Window :=
  (ws.filter matchesCursor).head?

/-- collect_response from simple_ui_bridge.py: read the clipboard after a
select-all plus copy; a non-empty clipboard longer than 20 characters yields
its last 200 characters, anything else yields a canned acknowledgment that
embeds the first 30 characters of the original message; an exception during
extraction yields the alternative canned acknowledgment.  Total, hence the
source contract that collection never raises is captured by construction. -/
def collect_response (x : ClipResult) (original_message : String) : String :=
  match x with
  | .got clipboard_text =>
    if clipboard_text ≠ "" ∧ 20 < clipboard_text.length then
      pyTail clipboard_text 200
    else
      "✅ Cursor processed: \x27" ++ pyTake original_message 30 ++ "...\x27"
  | .raised =>
      "✅ Message sent to Cursor: \x27" ++ pyTake original_message 30 ++ "...\x27"

/-- Keystrokes and waits emitted by the collection step (select all, copy). -/
def collectTrace : List UIEvent :=
  [.hotkey ["ctrl", "a"], .sleepMs 1000, .hotkey ["ctrl", "c"], .sleepMs 1000]

/-- The dict returned by SimpleCursorBridge.send_to_cursor, extended with the
window operated on and the emitted event trace. -/
structure SendResult where
  success : Bool
  error : Option String
  cursor_response : Option String
  activated : Option Nat
  trace : List UIEvent
deriving DecidableEq, Repr

/-- send_to_cursor from simple_ui_bridge.py: locate and activate the Cursor
window (returning the not-found error, with no keystrokes emitted, when no
window matches), then open the chat, clear it, type the message, press
enter, dwell 8 seconds, and collect the response. -/
def send_to_cursor (ws : List Window) (clip : ClipResult) (message : String) : SendResult :=
  match activate_cursor ws with
  | none =>
      { success := false
        error := some "Cursor window not found - make sure Cursor is open"
        cursor_response := none
        activated := none
        trace := [] }
  | some w =>
      { success := true
        error := none
        cursor_response := some (collect_response clip message)
        activated := some w.hwnd
        trace :=
          [.activateWindow w.hwnd, .sleepMs 1000,
           .hotkey ["ctrl", "l"], .sleepMs 2000,
           .hotkey ["ctrl", "a"], .sleepMs 500,
           .press "delete", .sleepMs 500,
           .typewrite message, .sleepMs 1000,
           .press "enter", .sleepMs 8000] ++ collectTrace }

end SimpleUiBridge

namespace SimpleCursorBridge

/-- Window filter of find_cursor_window in src/simple_cursor_bridge.py:
visible windows whose lowercased title contains cursor or code. -/
def windowMatches (w : Window) : Bool :=
  w.visible && (strContains (pyLower w.title) "cursor" || strContains (pyLower w.title) "code")

/-- find_cursor_window from src/simple_cursor_bridge.py. -/
def find_cursor_window (ws : List Window) : List Window :=
  ws.filter windowMatches

/-- activate_cursor_window from src/simple_cursor_bridge.py: use the first
matching window. -/
def activate_cursor_window (ws : List Window) : Option Window :=
  (find_cursor_window ws).head?

/-- The dict returned by send_to_cursor_chat, extended with the emitted
event trace. -/
structure ChatResult where
  success : Bool
  error : Option String
  trace : List UIEvent
deriving DecidableEq, Repr

/-- send_to_cursor_chat from src/simple_cursor_bridge.py: activate the
window, emit the two chat hotkeys, type the message, wait half a second and
return success.  The submit keystroke is commented out in the source
(pyautogui.press enter under Step 4), so no enter press, no dwell and no
collection step appear in the trace. -/
def send_to_cursor_chat (ws : List Window) (message : String) : ChatResult :=
  match activate_cursor_window ws with
  | none =>
      { success := false
        error := some "Could not find or activate Cursor window"
        trace := [] }
  | some w =>
      { success := true
        error := none
        trace :=
          [.activateWindow w.hwnd, .sleepMs 500,
           .hotkey ["ctrl", "shift", "l"], .sleepMs 1000,
           .hotkey ["ctrl", "l"], .sleepMs 1000,
           .typewrite message, .sleepMs 500] }

end SimpleCursorBridge

/-! Helper lemmas about the string model. -/

/-- Appending preserves the character-list view of strings. -/
theorem data_append_eq (a b : String) : (a ++ b).data = a.data ++ b.data := rfl

/-- A string with a non-empty character list is not the empty string. -/
theorem string_ne_empty_of_data (s : String) (h : s.data ≠ []) : s ≠ "" := by
  intro e
  apply h
  rw [e]

/-- A left-nested append whose leftmost part is non-empty is non-empty. -/
theorem lit_append_append_ne_empty (p q r : String) (hp : p.data ≠ []) :
    p ++ q ++ r ≠ "" := by
  apply string_ne_empty_of_data
  rw [data_append_eq, data_append_eq]
  intro e
  rcases List.append_eq_nil.mp e with ⟨e1, _⟩
  rcases List.append_eq_nil.mp e1 with ⟨e2, _⟩
  exact hp e2

/-- Length of the trailing slice. -/
theorem length_pyTail (s : String) (n : Nat) :
    (pyTail s n).length = s.data.length - (s.data.length - n) := by
  show (s.data.drop (s.data.length - n)).length = _
  simp

/-- The trailing slice of a non-empty string is non-empty. -/
theorem pyTail_ne_empty (t : String) (h : 0 < t.data.length) : pyTail t 200 ≠ "" := by
  apply string_ne_empty_of_data
  intro e
  have hl : (pyTail t 200).data.length = ([] : List Char).length := by rw [e]
  simp only [pyTail, List.length_drop, List.length_nil] at hl
  omega

/-! Helper lemmas about the activity log. -/

/-- Appending to a log strictly below capacity does not evict. -/
theorem add_log_small (logs : List SrcApp.LogEntry) (e : SrcApp.LogEntry)
    (h : logs.length < SrcApp.MAX_LOGS) : SrcApp.add_log logs e = logs ++ [e] := by
  unfold SrcApp.add_log
  have hc : ¬ SrcApp.MAX_LOGS < (logs ++ [e]).length := by
    simp only [List.length_append, List.length_cons, List.length_nil]
    omega
  rw [if_neg hc]

/-- Appending to a log at or above capacity pops the front element. -/
theorem add_log_full (logs : List SrcApp.LogEntry) (e : SrcApp.LogEntry)
    (h : SrcApp.MAX_LOGS ≤ logs.length) : SrcApp.add_log logs e = (logs ++ [e]).drop 1 := by
  unfold SrcApp.add_log
  have hc : SrcApp.MAX_LOGS < (logs ++ [e]).length := by
    simp only [List.length_append, List.length_cons, List.length_nil]
    omega
  rw [if_pos hc]

/-- While total size stays within capacity, folding add_log just appends. -/
theorem foldl_add_log_fill :
    ∀ (es logs : List SrcApp.LogEntry), logs.length + es.length ≤ SrcApp.MAX_LOGS →
      es.foldl SrcApp.add_log logs = logs ++ es := by
  intro es
  induction es with
  | nil => intro logs _; simp
  | cons e t ih =>
    intro logs h
    simp only [List.length_cons] at h
    rw [List.foldl_cons]
    rw [add_log_small logs e (by omega)]
    rw [ih (logs ++ [e]) (by simp; omega)]
    simp

/-- One append preserves the capacity bound. -/
theorem add_log_length_le (logs : List SrcApp.LogEntry) (e : SrcApp.LogEntry)
    (h : logs.length ≤ SrcApp.MAX_LOGS) : (SrcApp.add_log logs e).length ≤ SrcApp.MAX_LOGS := by
  unfold SrcApp.add_log
  split
  · next hc =>
    simp only [List.length_drop, List.length_append, List.length_cons, List.length_nil]
    omega
  · next hc =>
    simp only [List.length_append, List.length_cons, List.length_nil] at hc ⊢
    omega

/-- Folding any sequence of appends preserves the capacity bound. -/
theorem foldl_add_log_bound :
    ∀ (es logs : List SrcApp.LogEntry), logs.length ≤ SrcApp.MAX_LOGS →
      (es.foldl SrcApp.add_log logs).length ≤ SrcApp.MAX_LOGS := by
  intro es
  induction es with
  | nil => intro logs h; simpa using h
  | cons e t ih =>
    intro logs h
    rw [List.foldl_cons]
    exact ih _ (add_log_length_le logs e h)

/-- C7: the activity log buffer never exceeds the fixed capacity
MAX_LOGS = 50 after an append completes; one append evicts exactly the
front (oldest) element when and only when the buffer is full, and no other
eviction applies; inserting MAX_LOGS + 1 entries into the empty log leaves
exactly MAX_LOGS entries with the oldest entry evicted (FIFO). -/
theorem c7_log_capacity_fifo :
    (∀ es : List SrcApp.LogEntry, (es.foldl SrcApp.add_log []).length ≤ SrcApp.MAX_LOGS) ∧
    (∀ (logs : List SrcApp.LogEntry) (e : SrcApp.LogEntry), logs.length ≤ SrcApp.MAX_LOGS →
      SrcApp.add_log logs e =
        if logs.length = SrcApp.MAX_LOGS then (logs ++ [e]).drop 1 else logs ++ [e]) ∧
    (∀ es : List SrcApp.LogEntry, es.length = SrcApp.MAX_LOGS + 1 →
      es.foldl SrcApp.add_log [] = es.drop 1 ∧
      (es.foldl SrcApp.add_log []).length = SrcApp.MAX_LOGS) := by
  refine ⟨?_, ?_, ?_⟩
  · intro es
    exact foldl_add_log_bound es [] (by simp)
  · intro logs e h
    by_cases hfull : logs.length = SrcApp.MAX_LOGS
    · rw [if_pos hfull]
      exact add_log_full logs e (by omega)
    · rw [if_neg hfull]
      exact add_log_small logs e (by omega)
  · intro es h
    have hne : es ≠ [] := by
      intro hnil
      rw [hnil] at h
      simp [SrcApp.MAX_LOGS] at h
    obtain ⟨l, a, hdec⟩ : ∃ l a, es = l ++ [a] :=
      ⟨es.dropLast, es.getLast hne, (List.dropLast_append_getLast hne).symm⟩
    have hl : l.length = SrcApp.MAX_LOGS := by
      rw [hdec] at h
      simp only [List.length_append, List.length_cons, List.length_nil] at h
      omega
    rw [hdec]
    rw [List.foldl_append]
    rw [foldl_add_log_fill l [] (by simp [hl])]
    simp only [List.nil_append, List.foldl_cons, List.foldl_nil]
    rw [add_log_full l a (by omega)]
    constructor
    · rfl
    · simp only [List.length_drop, List.length_append, List.length_cons, List.length_nil]
      omega

/-- C7 witness: inserting 51 concrete entries into the empty log yields the
51-entry sequence with its first entry dropped, of length exactly 50. -/
theorem c7_witness :
    List.foldl SrcApp.add_log []
        (List.replicate 51 ({ timestamp := "t", log_type := "SMS_RECEIVED", message := "m",
                              phone_number := none, action := none, result := none } : SrcApp.LogEntry)) =
      (List.replicate 51 ({ timestamp := "t", log_type := "SMS_RECEIVED", message := "m",
                            phone_number := none, action := none, result := none } : SrcApp.LogEntry)).drop 1 ∧
    (List.foldl SrcApp.add_log []
        (List.replicate 51 ({ timestamp := "t", log_type := "SMS_RECEIVED", message := "m",
                              phone_number := none, action := none, result := none } : SrcApp.LogEntry))).length =
      SrcApp.MAX_LOGS :=
  c7_log_capacity_fifo.2.2 _ (by simp [SrcApp.MAX_LOGS])

/-- C1 counterexample: a payload that fails JSON parsing is malformed, yet
the dashboard variant process_with_gemini (src/app.py) returns a fallback
create_file action, not an error-kind action, refuting the claim that every
malformed payload yields an error-kind Action. -/
theorem c1_counterexample :
    isMalformed (ClassifierPayload.unparseable "Expecting value") = true ∧
    (SrcApp.process_with_gemini "hi" (ClassifierPayload.unparseable "Expecting value")).action ≠
      ActionType.error :=
  ⟨rfl, by decide⟩

/-- C1 amended: both validator wrappers return an Action on every malformed
payload (they are total, so nothing escapes the boundary); the top-level
app.py variant returns an error-kind Action, while the dashboard src/app.py
variant returns a fallback create_file Action for malformed payloads. -/
theorem c1_validator_amended :
    ∀ (message : String) (p : ClassifierPayload), isMalformed p = true →
      (RootApp.process_with_gemini message p).action = ActionType.error ∧
      (SrcApp.process_with_gemini message p).action = ActionType.create_file := by
  intro message p h
  cases p with
  | parsed raw =>
    cases hv : validateCursorAction raw with
    | ok a => simp [isMalformed, hv] at h
    | error e =>
      constructor
      · simp [RootApp.process_with_gemini, hv]
      · simp [SrcApp.process_with_gemini, hv]
  | unparseable e => exact ⟨rfl, rfl⟩
  | apiFailure e => simp [isMalformed] at h

/-- C1 witness: the amended theorem applied to a concrete unparseable
payload. -/
theorem c1_witness :
    (RootApp.process_with_gemini "hi" (ClassifierPayload.unparseable "bad")).action =
      ActionType.error ∧
    (SrcApp.process_with_gemini "hi" (ClassifierPayload.unparseable "bad")).action =
      ActionType.create_file :=
  c1_validator_amended "hi" (ClassifierPayload.unparseable "bad") rfl

/-- C2 counterexample: a classifier payload with action create_file, a
description and no file_path passes schema validation unchanged, so a
create_file Action built from validated classifier output can carry no
file_path at all, refuting the construction-time invariant as stated. -/
theorem c2_counterexample :
    validateCursorAction { action := some "create_file", command := some "c",
                           description := some "d", file_path := none } =
      Except.ok { action := ActionType.create_file, command := some "c",
                  description := "d", file_path := none } ∧
    (SrcApp.process_with_gemini "m"
        (ClassifierPayload.parsed { action := some "create_file", command := some "c",
                                    description := some "d", file_path := none })).action =
      ActionType.create_file ∧
    (SrcApp.process_with_gemini "m"
        (ClassifierPayload.parsed { action := some "create_file", command := some "c",
                                    description := some "d", file_path := none })).file_path =
      none :=
  ⟨rfl, rfl, rfl⟩

/-- C2 amended: every fallback-constructed create_file Action (the
JSONDecodeError and ValidationError branches of the dashboard variant)
carries a non-empty file_path; schema validation itself does not require a
file_path for create_file, so only the fallback constructions guarantee
one. -/
theorem c2_fallback_amended :
    ∀ (message emsg : String) (raw : RawData),
      ((SrcApp.process_with_gemini message (ClassifierPayload.unparseable emsg)).action =
          ActionType.create_file ∧
       (SrcApp.process_with_gemini message (ClassifierPayload.unparseable emsg)).file_path =
          some "command_response.txt" ∧
       "command_response.txt" ≠ "") ∧
      (∀ e : String, validateCursorAction raw = Except.error e →
        (SrcApp.process_with_gemini message (ClassifierPayload.parsed raw)).action =
            ActionType.create_file ∧
        (SrcApp.process_with_gemini message (ClassifierPayload.parsed raw)).file_path =
            some "response.txt" ∧
        "response.txt" ≠ "") := by
  intro message emsg raw
  constructor
  · exact ⟨rfl, rfl, by decide⟩
  · intro e hv
    refine ⟨?_, ?_, by decide⟩
    · simp [SrcApp.process_with_gemini, hv]
    · simp [SrcApp.process_with_gemini, hv]

/-- C2 witness: the amended theorem applied to a concrete payload that
fails validation because its description is missing. -/
theorem c2_witness :
    (SrcApp.process_with_gemini "m"
        (ClassifierPayload.parsed { action := some "create_file", command := none,
                                    description := none, file_path := some "x.py" })).action =
      ActionType.create_file ∧
    (SrcApp.process_with_gemini "m"
        (ClassifierPayload.parsed { action := some "create_file", command := none,
                                    description := none, file_path := some "x.py" })).file_path =
      some "response.txt" ∧
    "response.txt" ≠ "" :=
  (c2_fallback_amended "m" "e"
      { action := some "create_file", command := none,
        description := none, file_path := some "x.py" }).2
    "field required: description" rfl

/-- C3: when neither health probe answers 200, the router returns one of
the two no-backend outcome messages and no bridge ever receives the
execute POST (the Automation Executor is never contacted). -/
theorem c3_no_backend_no_execute :
    ∀ w : World, w.health5002 ≠ ProbeResult.ok 200 → w.health5001 ≠ ProbeResult.ok 200 →
      isNoBackendOutcome (SrcApp.perform_cursor_action w).outcome = true ∧
      (SrcApp.perform_cursor_action w).executed = none := by
  intro w h2 h1
  have hfb : isNoBackendOutcome (SrcApp.tryFallback w).outcome = true ∧
      (SrcApp.tryFallback w).executed = none := by
    cases hh : w.health5001 with
    | ok s =>
      have hs : s ≠ 200 := by
        intro e
        exact h1 (by rw [hh, e])
      simp [SrcApp.tryFallback, hh, hs, isNoBackendOutcome]
    | exn => simp [SrcApp.tryFallback, hh, isNoBackendOutcome]
  cases hh2 : w.health5002 with
  | ok s =>
    have hs : s ≠ 200 := by
      intro e
      exact h2 (by rw [hh2, e])
    simpa [SrcApp.perform_cursor_action, hh2, hs] using hfb
  | exn => simpa [SrcApp.perform_cursor_action, hh2] using hfb

/-- C3 witness: a concrete environment where the enhanced probe raises and
the simple probe answers 404. -/
theorem c3_witness :
    isNoBackendOutcome
        (SrcApp.perform_cursor_action
          { health5002 := .exn, health5001 := .ok 404,
            post5002 := .connErr, post5001 := .connErr }).outcome = true ∧
    (SrcApp.perform_cursor_action
        { health5002 := .exn, health5001 := .ok 404,
          post5002 := .connErr, post5001 := .connErr }).executed = none :=
  c3_no_backend_no_execute
    { health5002 := .exn, health5001 := .ok 404,
      post5002 := .connErr, post5001 := .connErr }
    (by decide) (by decide)

/-- C4: whenever the priority-0 Enhanced Bridge (port 5002) answers its
health probe with 200, the router selects it, the execute POST goes to it
and never to the port-5001 fallback, regardless of the fallback state, and
the outcome is the interpretation of the enhanced-bridge response.
Selection is a deterministic function of the probe results. -/
theorem c4_priority_selection :
    ∀ w : World, w.health5002 = ProbeResult.ok 200 →
      (SrcApp.perform_cursor_action w).executed = some BridgeName.enhanced ∧
      (SrcApp.perform_cursor_action w).outcome =
        SrcApp.interpretPost BridgeName.enhanced w.post5002 := by
  intro w h
  constructor <;> simp [SrcApp.perform_cursor_action, h]

/-- C4 witness: a concrete environment with the enhanced bridge healthy and
the fallback probe raising. -/
theorem c4_witness :
    (SrcApp.perform_cursor_action
        { health5002 := .ok 200, health5001 := .exn,
          post5002 := .resp 200 { success := none, cursor_response := none,
                                  method := none, error := none },
          post5001 := .connErr }).executed = some BridgeName.enhanced ∧
    (SrcApp.perform_cursor_action
        { health5002 := .ok 200, health5001 := .exn,
          post5002 := .resp 200 { success := none, cursor_response := none,
                                  method := none, error := none },
          post5001 := .connErr }).outcome =
      SrcApp.interpretPost BridgeName.enhanced
        (.resp 200 { success := none, cursor_response := none,
                     method := none, error := none }) :=
  c4_priority_selection
    { health5002 := .ok 200, health5001 := .exn,
      post5002 := .resp 200 { success := none, cursor_response := none,
                              method := none, error := none },
      post5001 := .connErr } rfl

/-- C5 counterexample: the enhanced bridge answers the execute POST with
HTTP 200 but a body whose success flag is false; the routed dispatch does
not yield a succeeded outcome, refuting the claim that an HTTP-success
response always yields a succeeded outcome. -/
theorem c5_counterexample :
    (SrcApp.perform_cursor_action
        { health5002 := .ok 200, health5001 := .exn,
          post5002 := .resp 200 { success := some false, cursor_response := none,
                                  method := none, error := some "boom" },
          post5001 := .connErr }).executed = some BridgeName.enhanced ∧
    isSucceededOutcome
        (SrcApp.perform_cursor_action
          { health5002 := .ok 200, health5001 := .exn,
            post5002 := .resp 200 { success := some false, cursor_response := none,
                                    method := none, error := some "boom" },
            post5001 := .connErr }).outcome = false :=
  ⟨rfl, rfl⟩

/-- Routing lemma for the fallback branch: whenever the fallback selected a
bridge for the execute POST, the dispatch outcome is the interpretation of
that bridge response. -/
theorem tryFallback_outcome_of_executed (w : World) (b : BridgeName)
    (h : (SrcApp.tryFallback w).executed = some b) :
    (SrcApp.tryFallback w).outcome = SrcApp.interpretPost b (SrcApp.postFor w b) := by
  cases hh : w.health5001 with
  | ok s =>
    by_cases hs : s = 200
    · have hb : BridgeName.simple = b := by
        simpa [SrcApp.tryFallback, hh, hs] using h
      subst hb
      simp [SrcApp.tryFallback, hh, hs, SrcApp.postFor]
    · simp [SrcApp.tryFallback, hh, hs] at h
  | exn => simp [SrcApp.tryFallback, hh] at h

/-- Routing lemma: whenever some bridge received the execute POST, the
dispatch outcome is the interpretation of that bridge response body, for
either bridge. -/
theorem perform_outcome_of_executed (w : World) (b : BridgeName)
    (h : (SrcApp.perform_cursor_action w).executed = some b) :
    (SrcApp.perform_cursor_action w).outcome =
      SrcApp.interpretPost b (SrcApp.postFor w b) := by
  cases hh : w.health5002 with
  | ok s =>
    by_cases hs : s = 200
    · have hb : BridgeName.enhanced = b := by
        simpa [SrcApp.perform_cursor_action, hh, hs] using h
      subst hb
      simp [SrcApp.perform_cursor_action, hh, hs, SrcApp.postFor]
    · have hfb : (SrcApp.tryFallback w).executed = some b := by
        simpa [SrcApp.perform_cursor_action, hh, hs] using h
      have hout := tryFallback_outcome_of_executed w b hfb
      simpa [SrcApp.perform_cursor_action, hh, hs] using hout
  | exn =>
    have hfb : (SrcApp.tryFallback w).executed = some b := by
      simpa [SrcApp.perform_cursor_action, hh] using h
    have hout := tryFallback_outcome_of_executed w b hfb
    simpa [SrcApp.perform_cursor_action, hh] using hout

/-- C5 amended: for every execute request the router forwards to a selected
backend (either the enhanced bridge on port 5002 or the simple fallback on
port 5001), a 200 response whose success flag is true or absent yields the
collected cursor_response when it is a non-empty string longer than 10
characters and a default acknowledgment otherwise; a 200 response with
success false yields the bridge-error outcome with the body error; a
non-200 status yields the failed-with-status outcome; ConnectionError
yields connection refused and Timeout yields the timeout outcome. -/
theorem c5_outcome_interpretation_amended :
    ∀ (w : World) (b : BridgeName),
      (SrcApp.perform_cursor_action w).executed = some b →
      (∀ body : BridgeBody, SrcApp.postFor w b = PostResult.resp 200 body →
        body.success.getD true = true →
        (SrcApp.perform_cursor_action w).outcome =
          (if (body.cursor_response.getD "No response captured") ≠ "" ∧
              10 < (body.cursor_response.getD "No response captured").length then
            RouteOutcome.cursorResponse (body.method.getD "unknown")
              (body.cursor_response.getD "No response captured")
          else RouteOutcome.sentOk b)) ∧
      (∀ body : BridgeBody, SrcApp.postFor w b = PostResult.resp 200 body →
        body.success = some false →
        (SrcApp.perform_cursor_action w).outcome =
          RouteOutcome.bridgeError b (body.error.getD "Unknown error")) ∧
      (∀ (s : Nat) (body : BridgeBody), SrcApp.postFor w b = PostResult.resp s body →
        s ≠ 200 →
        (SrcApp.perform_cursor_action w).outcome = RouteOutcome.bridgeFailed b s) ∧
      (SrcApp.postFor w b = PostResult.connErr →
        (SrcApp.perform_cursor_action w).outcome = RouteOutcome.connectionRefused) ∧
      (SrcApp.postFor w b = PostResult.timeoutErr →
        (SrcApp.perform_cursor_action w).outcome = RouteOutcome.timedOut) := by
  intro w b h
  have hout := perform_outcome_of_executed w b h
  refine ⟨?_, ?_, ?_, ?_, ?_⟩
  · intro body hp hs
    rw [hout, hp]
    simp [SrcApp.interpretPost, hs]
  · intro body hp hs
    rw [hout, hp]
    simp [SrcApp.interpretPost, hs]
  · intro s body hp hs
    rw [hout, hp]
    simp [SrcApp.interpretPost, hs]
  · intro hp
    rw [hout, hp]
    rfl
  · intro hp
    rw [hout, hp]
    rfl

/-- C5 witness: the amended theorem applied to a concrete timeout on the
enhanced bridge and to a concrete timeout on the simple fallback bridge
(enhanced probe raising, fallback healthy). -/
theorem c5_witness :
    (SrcApp.perform_cursor_action
        { health5002 := .ok 200, health5001 := .exn,
          post5002 := .timeoutErr, post5001 := .connErr }).outcome =
      RouteOutcome.timedOut ∧
    (SrcApp.perform_cursor_action
        { health5002 := .exn, health5001 := .ok 200,
          post5002 := .connErr, post5001 := .timeoutErr }).outcome =
      RouteOutcome.timedOut :=
  ⟨(c5_outcome_interpretation_amended
      { health5002 := .ok 200, health5001 := .exn,
        post5002 := .timeoutErr, post5001 := .connErr }
      BridgeName.enhanced rfl).2.2.2.2 rfl,
   (c5_outcome_interpretation_amended
      { health5002 := .exn, health5001 := .ok 200,
        post5002 := .connErr, post5001 := .timeoutErr }
      BridgeName.simple rfl).2.2.2.2 rfl⟩

/-- C10: a 200 reply from whichever bridge received the execute POST whose
JSON body lacks the success field is treated as a success, because the
source reads the flag with a default of true; the dispatch yields a
succeeded outcome even though the backend contract declares success a
required boolean. -/
theorem c10_missing_success_defaults_true :
    ∀ (w : World) (b : BridgeName) (body : BridgeBody),
      (SrcApp.perform_cursor_action w).executed = some b →
      SrcApp.postFor w b = PostResult.resp 200 body → body.success = none →
      isSucceededOutcome (SrcApp.perform_cursor_action w).outcome = true := by
  intro w b body h hp hs
  rw [perform_outcome_of_executed w b h, hp]
  simp only [SrcApp.interpretPost, hs, Option.getD_none, if_true, reduceIte]
  split
  · rfl
  · rfl

/-- C10 witness: concrete 200 replies with no success field, one from the
enhanced bridge and one from the simple fallback bridge, both yield a
succeeded outcome. -/
theorem c10_witness :
    isSucceededOutcome
        (SrcApp.perform_cursor_action
          { health5002 := .ok 200, health5001 := .exn,
            post5002 := .resp 200 { success := none,
                                    cursor_response := some "the answer is forty two",
                                    method := some "ui", error := none },
            post5001 := .connErr }).outcome = true ∧
    isSucceededOutcome
        (SrcApp.perform_cursor_action
          { health5002 := .exn, health5001 := .ok 200,
            post5002 := .connErr,
            post5001 := .resp 200 { success := none, cursor_response := none,
                                    method := none, error := none } }).outcome = true :=
  ⟨c10_missing_success_defaults_true
      { health5002 := .ok 200, health5001 := .exn,
        post5002 := .resp 200 { success := none,
                                cursor_response := some "the answer is forty two",
                                method := some "ui", error := none },
        post5001 := .connErr }
      BridgeName.enhanced
      { success := none, cursor_response := some "the answer is forty two",
        method := some "ui", error := none }
      rfl rfl rfl,
   c10_missing_success_defaults_true
      { health5002 := .exn, health5001 := .ok 200,
        post5002 := .connErr,
        post5001 := .resp 200 { success := none, cursor_response := none,
                                method := none, error := none } }
      BridgeName.simple
      { success := none, cursor_response := none, method := none, error := none }
      rfl rfl rfl⟩

/-- C6: collect_response always returns some non-empty text (and, being a
total function over all modelled failure modes, never raises); when the
clipboard content is non-empty and longer than 20 characters it returns
the trailing slice of at most 200 characters of that content; in every
other case, including an empty clipboard and an extraction exception, it
returns the corresponding non-empty canned acknowledgment built from the
first 30 characters of the original instruction. -/
theorem c6_collect_response_contract :
    ∀ (x : ClipResult) (orig : String),
      SimpleUiBridge.collect_response x orig ≠ "" ∧
      (∀ t : String, x = ClipResult.got t → t ≠ "" → 20 < t.length →
        SimpleUiBridge.collect_response x orig = pyTail t 200 ∧
        (SimpleUiBridge.collect_response x orig).length ≤ 200) ∧
      (∀ t : String, x = ClipResult.got t → ¬(t ≠ "" ∧ 20 < t.length) →
        SimpleUiBridge.collect_response x orig =
          "✅ Cursor processed: \x27" ++ pyTake orig 30 ++ "...\x27") ∧
      (x = ClipResult.raised →
        SimpleUiBridge.collect_response x orig =
          "✅ Message sent to Cursor: \x27" ++ pyTake orig 30 ++ "...\x27") := by
  intro x orig
  refine ⟨?_, ?_, ?_, ?_⟩
  · cases x with
    | got t =>
      by_cases hc : t ≠ "" ∧ 20 < t.length
      · have he : SimpleUiBridge.collect_response (.got t) orig = pyTail t 200 := by
          simp [SimpleUiBridge.collect_response, hc]
        rw [he]
        apply pyTail_ne_empty
        have hlen : t.length = t.data.length := rfl
        have h2 := hc.2
        omega
      · have he : SimpleUiBridge.collect_response (.got t) orig =
            "✅ Cursor processed: \x27" ++ pyTake orig 30 ++ "...\x27" := by
          simp only [SimpleUiBridge.collect_response, if_neg hc]
        rw [he]
        exact lit_append_append_ne_empty _ _ _ (by decide)
    | raised => exact lit_append_append_ne_empty _ _ _ (by decide)
  · intro t hx ht hlen
    subst hx
    have hc : t ≠ "" ∧ 20 < t.length := ⟨ht, hlen⟩
    have he : SimpleUiBridge.collect_response (.got t) orig = pyTail t 200 := by
      simp [SimpleUiBridge.collect_response, hc]
    refine ⟨he, ?_⟩
    rw [he, length_pyTail]
    omega
  · intro t hx hnc
    subst hx
    simp only [SimpleUiBridge.collect_response, if_neg hnc]
  · intro hx
    subst hx
    rfl

/-- C6 witness: the contract applied to a concrete 21-character clipboard,
to the empty clipboard and to an extraction exception. -/
theorem c6_witness :
    SimpleUiBridge.collect_response (ClipResult.got "abcdefghijklmnopqrstu") "make a file" =
      pyTail "abcdefghijklmnopqrstu" 200 ∧
    SimpleUiBridge.collect_response (ClipResult.got "") "make a file" =
      "✅ Cursor processed: \x27" ++ pyTake "make a file" 30 ++ "...\x27" ∧
    SimpleUiBridge.collect_response ClipResult.raised "make a file" =
      "✅ Message sent to Cursor: \x27" ++ pyTake "make a file" 30 ++ "...\x27" :=
  ⟨((c6_collect_response_contract (ClipResult.got "abcdefghijklmnopqrstu") "make a file").2.1
      "abcdefghijklmnopqrstu" rfl (by decide) (by decide)).1,
   (c6_collect_response_contract (ClipResult.got "") "make a file").2.2.1 "" rfl (by decide),
   (c6_collect_response_contract ClipResult.raised "make a file").2.2.2 rfl⟩

/-- C8: when no visible window title contains the marker string, the
executor returns the terminal not-found failure and its trace is empty, so
no keystroke is ever emitted; when at least one window matches, the
executor operates on the first enumerated match. -/
theorem c8_locate_step :
    ∀ (ws : List Window) (clip : ClipResult) (message : String),
      (ws.filter SimpleUiBridge.matchesCursor = [] →
        (SimpleUiBridge.send_to_cursor ws clip message).success = false ∧
        (SimpleUiBridge.send_to_cursor ws clip message).error =
          some "Cursor window not found - make sure Cursor is open" ∧
        (SimpleUiBridge.send_to_cursor ws clip message).trace = []) ∧
      (∀ (w : Window) (rest : List Window),
        ws.filter SimpleUiBridge.matchesCursor = w :: rest →
        (SimpleUiBridge.send_to_cursor ws clip message).activated = some w.hwnd ∧
        (SimpleUiBridge.send_to_cursor ws clip message).success = true) := by
  intro ws clip message
  constructor
  · intro h
    simp [SimpleUiBridge.send_to_cursor, SimpleUiBridge.activate_cursor, h]
  · intro w rest h
    simp [SimpleUiBridge.send_to_cursor, SimpleUiBridge.activate_cursor, h]

/-- C8 witness: a window list with no match returns the terminal failure
with an empty trace, and a list with two matches operates on the first. -/
theorem c8_witness :
    ((SimpleUiBridge.send_to_cursor [{ hwnd := 7, title := "Notepad", visible := true }]
        (ClipResult.got "") "hi").success = false ∧
     (SimpleUiBridge.send_to_cursor [{ hwnd := 7, title := "Notepad", visible := true }]
        (ClipResult.got "") "hi").error =
       some "Cursor window not found - make sure Cursor is open" ∧
     (SimpleUiBridge.send_to_cursor [{ hwnd := 7, title := "Notepad", visible := true }]
        (ClipResult.got "") "hi").trace = []) ∧
    ((SimpleUiBridge.send_to_cursor
        [{ hwnd := 3, title := "Cursor - main.py", visible := true },
         { hwnd := 4, title := "cursor two", visible := true }]
        (ClipResult.got "") "hi").activated = some 3 ∧
     (SimpleUiBridge.send_to_cursor
        [{ hwnd := 3, title := "Cursor - main.py", visible := true },
         { hwnd := 4, title := "cursor two", visible := true }]
        (ClipResult.got "") "hi").success = true) :=
  ⟨(c8_locate_step [{ hwnd := 7, title := "Notepad", visible := true }]
      (ClipResult.got "") "hi").1 (by decide),
   (c8_locate_step
      [{ hwnd := 3, title := "Cursor - main.py", visible := true },
       { hwnd := 4, title := "cursor two", visible := true }]
      (ClipResult.got "") "hi").2
     { hwnd := 3, title := "Cursor - main.py", visible := true }
     [{ hwnd := 4, title := "cursor two", visible := true }] (by decide)⟩

/-- C9 counterexample: in the simple cursor bridge variant
(src/simple_cursor_bridge.py) a concrete execution reaches the Inject step
(the instruction is typed), yet no enter keystroke and no collection
hotkey are ever emitted, because the submit line is commented out in the
source; this refutes the claim for that executor. -/
theorem c9_counterexample :
    (SimpleCursorBridge.send_to_cursor_chat
        [{ hwnd := 1, title := "Cursor", visible := true }] "hello").success = true ∧
    UIEvent.typewrite "hello" ∈
      (SimpleCursorBridge.send_to_cursor_chat
        [{ hwnd := 1, title := "Cursor", visible := true }] "hello").trace ∧
    UIEvent.press "enter" ∉
      (SimpleCursorBridge.send_to_cursor_chat
        [{ hwnd := 1, title := "Cursor", visible := true }] "hello").trace ∧
    UIEvent.hotkey ["ctrl", "c"] ∉
      (SimpleCursorBridge.send_to_cursor_chat
        [{ hwnd := 1, title := "Cursor", visible := true }] "hello").trace := by
  decide

/-- C9 amended: in the UI automation bridge (simple_ui_bridge.py) every
execution that reaches the Inject step then emits the enter key, sleeps
the fixed 8-second dwell and only then runs the collection keystrokes; in
the simple cursor bridge variant (src/simple_cursor_bridge.py) the submit
keystroke is commented out, so no enter press ever appears in its trace
and no dwell or collection follows typing. -/
theorem c9_submit_await_collect_amended :
    (∀ (ws : List Window) (clip : ClipResult) (message : String),
      (SimpleUiBridge.send_to_cursor ws clip message).success = true →
      ∃ pre : List UIEvent,
        (SimpleUiBridge.send_to_cursor ws clip message).trace =
          pre ++ ([UIEvent.typewrite message, UIEvent.sleepMs 1000,
                   UIEvent.press "enter", UIEvent.sleepMs 8000] ++
                  SimpleUiBridge.collectTrace)) ∧
    (∀ (ws : List Window) (message : String),
      UIEvent.press "enter" ∉ (SimpleCursorBridge.send_to_cursor_chat ws message).trace) := by
  constructor
  · intro ws clip message h
    cases hh : SimpleUiBridge.activate_cursor ws with
    | none => simp [SimpleUiBridge.send_to_cursor, hh] at h
    | some w =>
      refine ⟨[.activateWindow w.hwnd, .sleepMs 1000, .hotkey ["ctrl", "l"], .sleepMs 2000,
               .hotkey ["ctrl", "a"], .sleepMs 500, .press "delete", .sleepMs 500], ?_⟩
      simp [SimpleUiBridge.send_to_cursor, hh, SimpleUiBridge.collectTrace]
  · intro ws message
    cases hh : SimpleCursorBridge.activate_cursor_window ws with
    | none => simp [SimpleCursorBridge.send_to_cursor_chat, hh]
    | some w => simp [SimpleCursorBridge.send_to_cursor_chat, hh]

/-- C9 witness: the amended theorem applied to a concrete matching window
list and message for both bridges. -/
theorem c9_witness :
    (∃ pre : List UIEvent,
      (SimpleUiBridge.send_to_cursor
          [{ hwnd := 3, title := "Cursor - main.py", visible := true }]
          (ClipResult.got "") "hi").trace =
        pre ++ ([UIEvent.typewrite "hi", UIEvent.sleepMs 1000,
                 UIEvent.press "enter", UIEvent.sleepMs 8000] ++
                SimpleUiBridge.collectTrace)) ∧
    UIEvent.press "enter" ∉
      (SimpleCursorBridge.send_to_cursor_chat
        [{ hwnd := 3, title := "Cursor - main.py", visible := true }] "hi").trace :=
  ⟨c9_submit_await_collect_amended.1
      [{ hwnd := 3, title := "Cursor - main.py", visible := true }]
      (ClipResult.got "") "hi" (by decide),
   c9_submit_await_collect_amended.2
      [{ hwnd := 3, title := "Cursor - main.py", visible := true }] "hi"⟩
